import Mathlib

/-!
Shallow embedding of `src/hw1.py`: a small TensorFlow-1 model-construction
library (placeholder factory, one-layer / two-layer / convolutional model
builders, and a training-step executor).

Graph construction is embedded as values of an inductive `TExpr` (the Python
functions build TF graph nodes; the Lean functions build `TExpr` nodes).
Graph-node registration — the side effect of each `tf.*` call on the default
graph — is made explicit by threading the list of created nodes through a
state-and-error monad `BuildM`, mirroring that a Python exception aborts
construction and registers nothing further.  Static shape inference
(`Tensor.get_shape()`) is embedded as `staticShape`; unknown dimensions
(`None`) are `Option.none`.  Runtime evaluation of the loss sub-graph is
embedded as `evalT`, generic over an ordered field and over the exponential /
logarithm maps, so every definition stays executable.
-/

/-- Tensor element dtypes.  Every tensor in `hw1.py` is explicitly `tf.float32`. -/
inductive DType where
  | float32
  | float64
deriving DecidableEq, Repr

/-- Padding modes accepted by `tf.layers.conv2d`. -/
inductive Padding where
  | same
  | valid
deriving DecidableEq, Repr

/-- Activation argument of `tf.layers.conv2d` (`hw1.py` always passes `tf.nn.relu`). -/
inductive Activation where
  | relu
  | linear
deriving DecidableEq, Repr

/-- Symbolic computation-graph nodes, one constructor per TF primitive used by
`hw1.py`.

`randomNormal sh v` embeds `tf.random_normal(sh, stddev=math.sqrt(v))`: the
standard deviation is recorded by its square `v` (the variance), because every
stddev in the source is computed as `math.sqrt` of a rational and the radicand
determines the distribution; so the recorded field of a He-initialized weight
of fan-in `F` is `2 / F`. -/
inductive TExpr where
  | placeholder (dtype : DType) (shape : List (Option Nat)) (name : String)
  | variableNode (init : TExpr) (name : String) (dtype : DType)
  | randomNormal (shape : List Nat) (stddevSq : ℚ)
  | zeros (shape : List Nat)
  | matmul (a b : TExpr)
  | add (a b : TExpr)
  | relu (a : TExpr)
  | softmax (a : TExpr)
  | lossesSoftmaxXent (labels logits : TExpr)
  | reduceMean (a : TExpr)
  | conv2d (input : TExpr) (filters : Nat) (kernel : List Nat)
      (padding : Padding) (act : Activation) (name : String)
  | reshape (a : TExpr) (newShape : List (Option Nat))
deriving DecidableEq, Repr

namespace TExpr

/-- Output spatial extent of a stride-1 convolution along one axis
(`none` = statically unknown). -/
def convOutDim (pad : Padding) (k : Nat) : Option Nat → Option Nat
  | none => none
  | some h =>
    match pad with
    | Padding.same => some h
    | Padding.valid => some (h - k + 1)

/-- One axis of the broadcast of two shapes (TF/NumPy broadcasting: a `1`
broadcasts against anything; an unknown dimension stays unknown). -/
def combineDim : Option Nat → Option Nat → Option Nat
  | some 1, e => e
  | d, some 1 => d
  | none, _ => none
  | _, none => none
  | some d, some _ => some d

/-- Broadcast of two static shapes, right-aligned, missing leading axes
treated as `1` (mismatched known axes would raise in TF and are never built
in this development). -/
def broadcastShape (a b : List (Option Nat)) : List (Option Nat) :=
  let n := max a.length b.length
  List.zipWith combineDim
    (List.replicate (n - a.length) (some 1) ++ a)
    (List.replicate (n - b.length) (some 1) ++ b)

/-- Static shape of a rank-2 matrix product (ill-ranked operands, which TF
rejects at graph construction, give `[]`). -/
def matmulShape : List (Option Nat) → List (Option Nat) → List (Option Nat)
  | [m, _], [_, n] => [m, n]
  | _, _ => []

/-- Static shape of a stride-1 `conv2d` with `f` filters and kernel `k` on a
rank-4 input `(batch, height, width, channels)` (anything else gives `[]`). -/
def convShape (p : Padding) (k : List Nat) (f : Nat) :
    List (Option Nat) → List (Option Nat)
  | [b, h, w, _] =>
    match k with
    | [kh, kw] => [b, convOutDim p kh h, convOutDim p kw w, some f]
    | _ => []
  | _ => []

/-- Static shape inference, the embedding of `Tensor.get_shape()`.
Shapes of ill-formed applications (which TF rejects at graph construction,
and which the builders below never create) are returned as `[]`. -/
def staticShape : TExpr → List (Option Nat)
  | placeholder _ sh _ => sh
  | variableNode init _ _ => staticShape init
  | randomNormal sh _ => sh.map some
  | zeros sh => sh.map some
  | matmul a b => matmulShape (staticShape a) (staticShape b)
  | add a b => broadcastShape (staticShape a) (staticShape b)
  | relu a => staticShape a
  | softmax a => staticShape a
  | lossesSoftmaxXent _ _ => []
  | reduceMean _ => []
  | conv2d x f k p _ _ => convShape p k f (staticShape x)
  | reshape _ sh => sh

/-- Element dtype of a node (every op in this graph language preserves dtype,
and the TF defaults of `random_normal` and `zeros` are `float32`). -/
def dtypeOf : TExpr → DType
  | placeholder d _ _ => d
  | variableNode _ _ d => d
  | randomNormal _ _ => DType.float32
  | zeros _ => DType.float32
  | matmul a _ => dtypeOf a
  | add a _ => dtypeOf a
  | relu a => dtypeOf a
  | softmax a => dtypeOf a
  | lossesSoftmaxXent _ l => dtypeOf l
  | reduceMean a => dtypeOf a
  | conv2d x _ _ _ _ _ => dtypeOf x
  | reshape a _ => dtypeOf a

/-- The padding mode a convolution node was built with. -/
def convPadding : TExpr → Option Padding
  | conv2d _ _ _ p _ _ => some p
  | _ => none

/-- The kernel size a convolution node was built with. -/
def convKernel : TExpr → Option (List Nat)
  | conv2d _ _ k _ _ _ => some k
  | _ => none

end TExpr

/-- Does a concrete runtime shape fit a static placeholder shape?
(`none` axes accept any extent — this is how a placeholder with batch
dimension `None` accepts every batch size.) -/
def shapeCompatible : List Nat → List (Option Nat) → Bool
  | [], [] => true
  | d :: ds, od :: ods =>
    (match od with
     | none => true
     | some e => d = e) && shapeCompatible ds ods
  | _, _ => false

/-- Graph-building computations: an exception-or-value result together with
the list of graph nodes registered so far (the embedding of the TF default
graph, mutated by every `tf.*` call; a raised Python exception leaves it as
it was). -/
abbrev BuildM (α : Type) : Type := List TExpr → Except String α × List TExpr

namespace BuildM

def pureB (a : α) : BuildM α := fun g => (Except.ok a, g)

def bindB (m : BuildM α) (k : α → BuildM β) : BuildM β := fun g =>
  match m g with
  | (Except.ok a, g1) => k a g1
  | (Except.error e, g1) => (Except.error e, g1)

instance : Monad BuildM where
  pure := pureB
  bind := bindB

/-- Raise a Python exception: construction aborts, the graph is untouched. -/
def throwB (msg : String) : BuildM α := fun g => (Except.error msg, g)

/-- Register a freshly constructed graph node on the default graph. -/
def mkNode (e : TExpr) : BuildM TExpr := fun g => (Except.ok e, g ++ [e])

end BuildM

open BuildM TExpr

/-- `input_placeholder()`: float32, shape `(None, 784)`. -/
def input_placeholder : TExpr :=
  TExpr.placeholder DType.float32 [none, some 784] "image_input"

/-- `target_placeholder()`: float32, shape `(None, 10)`. -/
def target_placeholder : TExpr :=
  TExpr.placeholder DType.float32 [none, some 10] "image_target_onehot"

/-- `onelayer(X, Y, layersize=10)` from `hw1.py`.

`x_size = X.get_shape()[1].value` raises if the static shape has no second
axis; `var = 2 / x_size` raises `TypeError` when that axis is unknown
(`.value` is `None`).  Both failures happen before any `tf.*` call, so on
those paths no graph node is registered.  Otherwise the graph built is
exactly that of lines 74–88 of the source:
`w = Variable(random_normal([x_size, layersize], stddev=sqrt(2/x_size)))`,
`b = Variable(zeros([layersize]))`, `logits = matmul(X, w) + b`,
`batch_xentropy = tf.losses.softmax_cross_entropy(Y, logits)`,
`batch_loss = reduce_mean(batch_xentropy)`, `preds = softmax(logits)`,
returned in the order `(w, b, logits, preds, batch_xentropy, batch_loss)`. -/
def onelayer (X Y : TExpr) (layersize : Nat := 10) :
    BuildM (TExpr × TExpr × TExpr × TExpr × TExpr × TExpr) :=
  match (staticShape X).get? 1 with
  | none => throwB "ValueError: shape index 1 out of range"
  | some none => throwB "TypeError: unsupported operand / on int and NoneType"
  | some (some x_size) =>
    -- he initialisation, var(W) = 2 / n(in); std_dev = math.sqrt(var)
    let var : ℚ := 2 / x_size
    do
      let w ← mkNode (variableNode (randomNormal [x_size, layersize] var)
        "weights" DType.float32)
      let b ← mkNode (variableNode (zeros [layersize]) "biases" DType.float32)
      let logits ← mkNode (add (matmul X w) b)
      let batch_xentropy ← mkNode (lossesSoftmaxXent Y logits)
      let batch_loss ← mkNode (reduceMean batch_xentropy)
      let preds ← mkNode (softmax logits)
      pure (w, b, logits, preds, batch_xentropy, batch_loss)

/-- `twolayer(X, Y, hiddensize=30, outputsize=10)` from `hw1.py`:
two stacked affine transforms, the first He-initialized with
stddev `sqrt(2/x_size)` followed by `tf.nn.relu`, the second He-initialized
with stddev `sqrt(2/hiddensize)` producing the logits; loss and predictions
as in `onelayer`; returned in the order
`(w1, b1, w2, b2, logits, preds, batch_xentropy, batch_loss)`. -/
def twolayer (X Y : TExpr) (hiddensize : Nat := 30) (outputsize : Nat := 10) :
    BuildM (TExpr × TExpr × TExpr × TExpr × TExpr × TExpr × TExpr × TExpr) :=
  match (staticShape X).get? 1 with
  | none => throwB "ValueError: shape index 1 out of range"
  | some none => throwB "TypeError: unsupported operand / on int and NoneType"
  | some (some x_size) =>
    -- he initialisation, var(W) = 2 / n(in); std_dev1 = math.sqrt(var1),
    -- std_dev2 = math.sqrt(var2)
    let var1 : ℚ := 2 / x_size
    let var2 : ℚ := 2 / hiddensize
    do
      let w1 ← mkNode (variableNode (randomNormal [x_size, hiddensize] var1)
        "layer_1_weights" DType.float32)
      let b1 ← mkNode (variableNode (zeros [hiddensize])
        "layer_1_biases" DType.float32)
      let w2 ← mkNode (variableNode (randomNormal [hiddensize, outputsize] var2)
        "layer_2_weights" DType.float32)
      let b2 ← mkNode (variableNode (zeros [outputsize])
        "layer_2_biases" DType.float32)
      let layer1_activation ← mkNode (add (matmul X w1) b1)
      let layer1_output ← mkNode (relu layer1_activation)
      let logits ← mkNode (add (matmul layer1_output w2) b2)
      let batch_xentropy ← mkNode (lossesSoftmaxXent Y logits)
      let batch_loss ← mkNode (reduceMean batch_xentropy)
      let preds ← mkNode (softmax logits)
      pure (w1, b1, w2, b2, logits, preds, batch_xentropy, batch_loss)

/-- `convnet(X, Y, convlayer_sizes=[10,10], filter_shape=[3,3], outputsize=10,
padding="same")` from `hw1.py`.

Source-faithful details: `image_x = X.get_shape()[1].value` and
`image_y = X.get_shape()[2].value` raise immediately only when the static
shape has fewer than three axes; when an axis exists but is unknown the
`None` binds silently and the `TypeError` fires later, at the size
multiplication inside `tf.reshape` — after both convolution nodes were
already registered.  Both `tf.layers.conv2d` calls pass the literal string
`"same"` for padding (the `padding` parameter of `convnet` is never used)
and `tf.nn.relu` as activation.  The flattened tensor has static shape
`(None, image_x * image_y * convlayer_sizes[1])` and is passed to
`onelayer` with `outputsize` as the layer width. -/
def convnet (X Y : TExpr) (convlayer_sizes : List Nat := [10, 10])
    (filter_shape : List Nat := [3, 3]) (outputsize : Nat := 10)
    (padding : Padding := Padding.same) :
    BuildM (TExpr × TExpr × TExpr × TExpr × TExpr × TExpr × TExpr × TExpr) :=
  match (staticShape X).get? 1, (staticShape X).get? 2 with
  | some dimx, some dimy =>
    match convlayer_sizes.get? 0, convlayer_sizes.get? 1 with
    | some c0, some c1 =>
      do
        let conv1 ← mkNode (conv2d X c0 filter_shape Padding.same
          Activation.relu "conv1")
        let conv2 ← mkNode (conv2d conv1 c1 filter_shape Padding.same
          Activation.relu "conv2")
        match dimx, dimy with
        | some image_x, some image_y => do
          let conv2_vector ← mkNode (reshape conv2
            [none, some (image_x * image_y * c1)])
          let (w, b, logits, preds, batch_xentropy, batch_loss) ←
            onelayer conv2_vector Y outputsize
          pure (conv1, conv2, w, b, logits, preds, batch_xentropy, batch_loss)
        | _, _ =>
          throwB "TypeError: unsupported operand * on NoneType and int"
    | _, _ => throwB "IndexError: list index out of range"
  | _, _ => throwB "ValueError: shape index out of range"

/-- A TF operation as seen by `Session.run`: a value read out of the current
variable state and the fed placeholder bindings, and a state update (the
identity for pure readouts such as loss and summary tensors; the optimizer
step for a training op).  `σ` is the session's variable state, `β` the type
of fed arrays, `ρ` the type of fetched results. -/
structure TFOp (σ β ρ : Type) where
  eval : σ → List (TExpr × β) → ρ
  update : σ → List (TExpr × β) → σ

/-- `sess.run(ops, feed_dict)`: one atomic execution step — every fetched
value is computed from the same pre-call state (the same forward pass), and
the state updates of the fetched ops are then applied. -/
def sessRun (st : σ) (ops : List (TFOp σ β ρ)) (feed : List (TExpr × β)) :
    List ρ × σ :=
  (ops.map fun op => op.eval st feed,
   ops.foldl (fun s op => op.update s feed) st)

/-- `train_step(sess, batch, X, Y, train_op, loss_op, summaries_op)` from
`hw1.py`: one `sess.run` call on the list `[train_op, loss_op, summaries_op]`
with `feed_dict={X: batch[0], Y: batch[1]}`, destructured into the returned
triple `(train_result, loss, summary)`.  The resulting session state is
returned explicitly (the Python session mutates in place). -/
def train_step [Inhabited ρ] (sess : σ) (batch : β × β) (X Y : TExpr)
    (train_op loss_op summaries_op : TFOp σ β ρ) : (ρ × ρ × ρ) × σ :=
  let out := sessRun sess [train_op, loss_op, summaries_op]
    [(X, batch.1), (Y, batch.2)]
  ((out.1.getD 0 default, out.1.getD 1 default, out.1.getD 2 default), out.2)

/-- A concrete tensor value: a shape and its row-major flattened entries.
Generic in the scalar type so that evaluation stays executable (the `float32`
arithmetic of the source is abstracted to an ordered field). -/
structure TValue (α : Type) where
  shape : List Nat
  data : List α
deriving DecidableEq, Repr

namespace TValue

variable {α : Type} [LinearOrderedField α]

/-- `tf.matmul` on concrete rank-2 values. -/
def matmulVal (a b : TValue α) : Option (TValue α) :=
  match a.shape, b.shape with
  | [m, k], [k2, n] =>
    if k = k2 then
      some ⟨[m, n],
        (List.range m).flatMap fun i => (List.range n).map fun j =>
          ((List.range k).map fun t =>
            a.data.getD (i * k + t) 0 * b.data.getD (t * n + j) 0).sum⟩
    else none
  | _, _ => none

/-- `+` on concrete values: elementwise on equal shapes, or a rank-1 bias
broadcast across the rows of a rank-2 value (the two cases the graphs built
here use). -/
def addVal (a b : TValue α) : Option (TValue α) :=
  if a.shape = b.shape then
    some ⟨a.shape, List.zipWith (fun x y => x + y) a.data b.data⟩
  else
    match a.shape, b.shape with
    | [n, k], [k2] =>
      if k = k2 then
        some ⟨[n, k],
          (List.range n).flatMap fun i => (List.range k).map fun j =>
            a.data.getD (i * k + j) 0 + b.data.getD j 0⟩
      else none
    | _, _ => none

/-- Row `i` of a rank-2 value stored row-major with row length `k`. -/
def rowOf (v : TValue α) (k i : Nat) : List α :=
  (List.range k).map fun j => v.data.getD (i * k + j) 0

/-- Softmax of one row of logits, with `ex` the exponential map. -/
def softmaxRow (ex : α → α) (zrow : List α) : List α :=
  (zrow.map ex).map fun e => e / (zrow.map ex).sum

/-- Softmax cross-entropy of one row: `-Σⱼ y j * log (softmax z j)`. -/
def rowXent (ex lg : α → α) (yrow zrow : List α) : α :=
  -(List.zipWith (fun yv p => yv * lg p) yrow (softmaxRow ex zrow)).sum

/-- `tf.nn.softmax` on a rank-2 value, rowwise, with `ex` the exponential map. -/
def softmaxVal (ex : α → α) (v : TValue α) : Option (TValue α) :=
  match v.shape with
  | [n, k] =>
    some ⟨[n, k], (List.range n).flatMap fun i => softmaxRow ex (rowOf v k i)⟩
  | _ => none

/-- The per-example softmax cross-entropy vector
(`tf.nn.softmax_cross_entropy_with_logits`): entry `i` is
`-Σⱼ y i j * log (softmax z i j)`, with `ex`/`lg` the exponential and
logarithm maps. -/
def perExampleXent (ex lg : α → α) (y z : TValue α) : Option (TValue α) :=
  match y.shape, z.shape with
  | [n, k], [n2, k2] =>
    if n = n2 ∧ k = k2 then
      some ⟨[n],
        (List.range n).map fun i => rowXent ex lg (rowOf y k i) (rowOf z k i)⟩
    else none
  | _, _ => none

/-- `tf.losses.softmax_cross_entropy` with default arguments: the per-example
cross-entropy vector reduced to a single scalar by its default reduction
(`SUM_BY_NONZERO_WEIGHTS` with unit weights, i.e. the batch mean). -/
def lossesXentVal (ex lg : α → α) (y z : TValue α) : Option (TValue α) :=
  (perExampleXent ex lg y z).map fun per =>
    ⟨[], [per.data.sum / (per.data.length : α)]⟩

/-- `tf.reduce_mean` with no axis argument: the mean of all entries, a scalar. -/
def reduceMeanVal (v : TValue α) : TValue α :=
  ⟨[], [v.data.sum / (v.data.length : α)]⟩

/-- Reinterpret a value at a reshape target (`[-1, k]` infers the batch
extent; a fully known target must match the element count). -/
def reshapeVal (sh : List (Option Nat)) (v : TValue α) : Option (TValue α) :=
  match sh with
  | [none, some k] =>
    if k ∣ v.data.length then some ⟨[v.data.length / k, k], v.data⟩ else none
  | _ =>
    if (sh.map fun d => d.getD 1).prod = v.data.length then
      some ⟨sh.map fun d => d.getD 1, v.data⟩
    else none

end TValue

open TValue

/-- Evaluation of a graph node to a concrete value.  `env` supplies the
runtime contents of the leaves — fed placeholders and the current values of
trainable variables (a variable's value is its state, not its initializer
expression, so `env` is consulted for `variableNode` without recursing into
the initializer).  `ex` and `lg` interpret the exponential and logarithm;
sampling (`randomNormal`) and convolution are not modelled and evaluate to
`none`. -/
def evalT {α : Type} [LinearOrderedField α] (ex lg : α → α)
    (env : TExpr → Option (TValue α)) : TExpr → Option (TValue α)
  | TExpr.placeholder d sh n => env (TExpr.placeholder d sh n)
  | TExpr.variableNode init n d => env (TExpr.variableNode init n d)
  | TExpr.randomNormal _ _ => none
  | TExpr.zeros sh => some ⟨sh, List.replicate sh.prod 0⟩
  | TExpr.matmul a b =>
    match evalT ex lg env a, evalT ex lg env b with
    | some va, some vb => matmulVal va vb
    | _, _ => none
  | TExpr.add a b =>
    match evalT ex lg env a, evalT ex lg env b with
    | some va, some vb => addVal va vb
    | _, _ => none
  | TExpr.relu a =>
    match evalT ex lg env a with
    | some v => some ⟨v.shape, v.data.map fun x => max x 0⟩
    | none => none
  | TExpr.softmax a =>
    match evalT ex lg env a with
    | some v => softmaxVal ex v
    | none => none
  | TExpr.lossesSoftmaxXent y z =>
    match evalT ex lg env y, evalT ex lg env z with
    | some vy, some vz => lossesXentVal ex lg vy vz
    | _, _ => none
  | TExpr.reduceMean a =>
    match evalT ex lg env a with
    | some v => some (reduceMeanVal v)
    | none => none
  | TExpr.conv2d _ _ _ _ _ _ => none
  | TExpr.reshape a sh =>
    match evalT ex lg env a with
    | some v => reshapeVal sh v
    | none => none

/-! Named forms of the graph nodes the builders register, used to state the
run equations of `onelayer`, `twolayer` and `convnet` explicitly. -/

/-- The weight node of `onelayer`: shape `(F, l)`, He-initialized
(stddev `sqrt(2 / F)`, recorded by its square `2 / F`). -/
def oneW (F l : Nat) : TExpr :=
  variableNode (randomNormal [F, l] (2 / F)) "weights" DType.float32

/-- The bias node of `onelayer`: shape `(l)`, zero-initialized. -/
def oneB (l : Nat) : TExpr := variableNode (zeros [l]) "biases" DType.float32

/-- The logits node of `onelayer`: `matmul(X, w) + b`. -/
def oneLogits (X : TExpr) (F l : Nat) : TExpr := add (matmul X (oneW F l)) (oneB l)

/-- The predictions node of `onelayer`: `softmax(logits)`. -/
def onePreds (X : TExpr) (F l : Nat) : TExpr := softmax (oneLogits X F l)

/-- The `batch_xentropy` node of `onelayer`:
`tf.losses.softmax_cross_entropy(Y, logits)`. -/
def oneXent (X Y : TExpr) (F l : Nat) : TExpr :=
  lossesSoftmaxXent Y (oneLogits X F l)

/-- The `batch_loss` node of `onelayer`: `reduce_mean(batch_xentropy)`. -/
def oneLoss (X Y : TExpr) (F l : Nat) : TExpr := reduceMean (oneXent X Y F l)

/-- First-layer weights of `twolayer`: shape `(F, hid)`, He-initialized with
stddev `sqrt(2 / F)`. -/
def twoW1 (F hid : Nat) : TExpr :=
  variableNode (randomNormal [F, hid] (2 / F)) "layer_1_weights" DType.float32

/-- First-layer biases of `twolayer`. -/
def twoB1 (hid : Nat) : TExpr :=
  variableNode (zeros [hid]) "layer_1_biases" DType.float32

/-- Second-layer weights of `twolayer`: shape `(hid, o)`, He-initialized with
stddev `sqrt(2 / hid)`. -/
def twoW2 (hid o : Nat) : TExpr :=
  variableNode (randomNormal [hid, o] (2 / hid)) "layer_2_weights" DType.float32

/-- Second-layer biases of `twolayer`. -/
def twoB2 (o : Nat) : TExpr :=
  variableNode (zeros [o]) "layer_2_biases" DType.float32

/-- Hidden-layer output of `twolayer`: `relu(matmul(X, w1) + b1)`. -/
def twoHidden (X : TExpr) (F hid : Nat) : TExpr :=
  relu (add (matmul X (twoW1 F hid)) (twoB1 hid))

/-- Logits of `twolayer`: `matmul(relu(layer1), w2) + b2`. -/
def twoLogits (X : TExpr) (F hid o : Nat) : TExpr :=
  add (matmul (twoHidden X F hid) (twoW2 hid o)) (twoB2 o)

/-- Predictions of `twolayer`. -/
def twoPreds (X : TExpr) (F hid o : Nat) : TExpr := softmax (twoLogits X F hid o)

/-- `batch_xentropy` of `twolayer`. -/
def twoXent (X Y : TExpr) (F hid o : Nat) : TExpr :=
  lossesSoftmaxXent Y (twoLogits X F hid o)

/-- `batch_loss` of `twolayer`. -/
def twoLoss (X Y : TExpr) (F hid o : Nat) : TExpr :=
  reduceMean (twoXent X Y F hid o)

/-- The first convolution node of `convnet` (padding hardcoded to `"same"`,
activation `relu`). -/
def convC1 (X : TExpr) (c0 : Nat) (fs : List Nat) : TExpr :=
  conv2d X c0 fs Padding.same Activation.relu "conv1"

/-- The second convolution node of `convnet`. -/
def convC2 (X : TExpr) (c0 c1 : Nat) (fs : List Nat) : TExpr :=
  conv2d (convC1 X c0 fs) c1 fs Padding.same Activation.relu "conv2"

/-- The flattening node of `convnet`:
`tf.reshape(conv2, [-1, image_x * image_y * convlayer_sizes[1]])`. -/
def convVec (X : TExpr) (c0 c1 ix iy : Nat) (fs : List Nat) : TExpr :=
  reshape (convC2 X c0 c1 fs) [none, some (ix * iy * c1)]

/-! Concrete fixtures used to instantiate the theorems below. -/

/-- A one-feature input placeholder. -/
def X0 : TExpr := TExpr.placeholder DType.float32 [none, some 1] "x0"

/-- A one-class target placeholder. -/
def Y0 : TExpr := TExpr.placeholder DType.float32 [none, some 1] "y0"

/-- A rank-4 image placeholder `(None, 4, 4, 1)`. -/
def Ximg : TExpr := TExpr.placeholder DType.float32 [none, some 4, some 4, some 1] "ximg"

/-- A placeholder whose feature dimension is statically unknown. -/
def Xunk : TExpr := TExpr.placeholder DType.float32 [none, none] "xunk"

/-- Runtime environment for the concrete evaluations: a batch of one
all-zero example with an all-one target, all trainable parameters zero.
Leaves are dispatched on their node names. -/
def envW : TExpr → Option (TValue ℚ) := fun t =>
  match t with
  | TExpr.placeholder _ _ nm =>
    if nm = "x0" then some ⟨[1, 1], [0]⟩
    else if nm = "y0" then some ⟨[1, 1], [1]⟩
    else none
  | TExpr.variableNode _ nm _ =>
    if nm = "weights" then some ⟨[1, 1], [0]⟩
    else if nm = "biases" then some ⟨[1], [0]⟩
    else if nm = "layer_1_weights" then some ⟨[1, 1], [0]⟩
    else if nm = "layer_1_biases" then some ⟨[1], [0]⟩
    else if nm = "layer_2_weights" then some ⟨[1, 1], [0]⟩
    else if nm = "layer_2_biases" then some ⟨[1], [0]⟩
    else none
  | _ => none

/-- A pure readout operation over a toy integer session state: its value
depends on the state and the feed, and it never updates the state. -/
def readOp : TFOp Nat Nat Nat :=
  ⟨fun st feed => st + feed.length, fun st _ => st⟩

/-! Run equations: what each builder returns and registers, by computation. -/

/-- `onelayer` on an input whose feature dimension is statically `F`. -/
theorem onelayer_run (X Y : TExpr) (l : Nat) (g : List TExpr) (F : Nat)
    (h : (staticShape X).get? 1 = some (some F)) :
    onelayer X Y l g =
      (Except.ok (oneW F l, oneB l, oneLogits X F l, onePreds X F l,
        oneXent X Y F l, oneLoss X Y F l),
       g ++ [oneW F l, oneB l, oneLogits X F l, oneXent X Y F l,
         oneLoss X Y F l, onePreds X F l]) := by
  unfold onelayer
  rw [h]
  simp [Bind.bind, BuildM.bindB, BuildM.mkNode, Pure.pure, BuildM.pureB,
    oneW, oneB, oneLogits, onePreds, oneXent, oneLoss]

/-- `twolayer` on an input whose feature dimension is statically `F`. -/
theorem twolayer_run (X Y : TExpr) (hid o : Nat) (g : List TExpr) (F : Nat)
    (h : (staticShape X).get? 1 = some (some F)) :
    twolayer X Y hid o g =
      (Except.ok (twoW1 F hid, twoB1 hid, twoW2 hid o, twoB2 o,
        twoLogits X F hid o, twoPreds X F hid o,
        twoXent X Y F hid o, twoLoss X Y F hid o),
       g ++ [twoW1 F hid, twoB1 hid, twoW2 hid o, twoB2 o,
         add (matmul X (twoW1 F hid)) (twoB1 hid), twoHidden X F hid,
         twoLogits X F hid o, twoXent X Y F hid o, twoLoss X Y F hid o,
         twoPreds X F hid o]) := by
  unfold twolayer
  rw [h]
  simp [Bind.bind, BuildM.bindB, BuildM.mkNode, Pure.pure, BuildM.pureB,
    twoW1, twoB1, twoW2, twoB2, twoHidden, twoLogits, twoPreds, twoXent,
    twoLoss]

/-- `convnet` on a rank-4 input with statically known spatial extent
`ix × iy` delegates its classification head to `onelayer` on the flattened
tensor of width `ix * iy * c1`. -/
theorem convnet_run (X Y : TExpr) (cs fs : List Nat) (o : Nat) (p : Padding)
    (g : List TExpr) (ix iy c0 c1 : Nat)
    (hx : (staticShape X).get? 1 = some (some ix))
    (hy : (staticShape X).get? 2 = some (some iy))
    (h0 : cs.get? 0 = some c0) (h1 : cs.get? 1 = some c1) :
    convnet X Y cs fs o p g =
      (Except.ok (convC1 X c0 fs, convC2 X c0 c1 fs,
        oneW (ix * iy * c1) o, oneB o,
        oneLogits (convVec X c0 c1 ix iy fs) (ix * iy * c1) o,
        onePreds (convVec X c0 c1 ix iy fs) (ix * iy * c1) o,
        oneXent (convVec X c0 c1 ix iy fs) Y (ix * iy * c1) o,
        oneLoss (convVec X c0 c1 ix iy fs) Y (ix * iy * c1) o),
       g ++ [convC1 X c0 fs, convC2 X c0 c1 fs, convVec X c0 c1 ix iy fs,
         oneW (ix * iy * c1) o, oneB o,
         oneLogits (convVec X c0 c1 ix iy fs) (ix * iy * c1) o,
         oneXent (convVec X c0 c1 ix iy fs) Y (ix * iy * c1) o,
         oneLoss (convVec X c0 c1 ix iy fs) Y (ix * iy * c1) o,
         onePreds (convVec X c0 c1 ix iy fs) (ix * iy * c1) o]) := by
  unfold convnet
  rw [hx, hy, h0, h1]
  simp only [Bind.bind, BuildM.bindB, BuildM.mkNode]
  rw [onelayer_run (TExpr.reshape (TExpr.conv2d (TExpr.conv2d X c0 fs
    Padding.same Activation.relu "conv1") c1 fs Padding.same Activation.relu
    "conv2") [none, some (ix * iy * c1)]) Y o _ (ix * iy * c1) rfl]
  simp [convC1, convC2, convVec, Pure.pure, BuildM.pureB, List.append_assoc]

/-- `tf.reduce_mean` of a rank-0 value is that value. -/
theorem reduceMeanVal_scalar {α : Type} [LinearOrderedField α] (c : α) :
    reduceMeanVal (⟨[], [c]⟩ : TValue α) = ⟨[], [c]⟩ := by
  simp [reduceMeanVal]

/-- `tf.losses.softmax_cross_entropy` always evaluates to a rank-0 scalar. -/
theorem lossesXentVal_scalar {α : Type} [LinearOrderedField α] (ex lg : α → α)
    (y z : TValue α) (v : TValue α) (h : lossesXentVal ex lg y z = some v) :
    ∃ c, v = ⟨[], [c]⟩ := by
  unfold lossesXentVal at h
  rcases Option.map_eq_some'.mp h with ⟨per, _, hv⟩
  exact ⟨per.data.sum / (per.data.length : α), hv.symm⟩

/-- Because the cross-entropy node is a scalar, taking its `reduce_mean`
changes nothing: the two nodes evaluate to the same value. -/
theorem evalT_loss_of_xent {α : Type} [LinearOrderedField α] (ex lg : α → α)
    (env : TExpr → Option (TValue α)) (y z : TExpr) (v : TValue α)
    (h : evalT ex lg env (TExpr.lossesSoftmaxXent y z) = some v) :
    evalT ex lg env (TExpr.reduceMean (TExpr.lossesSoftmaxXent y z)) = some v := by
  have hscal : ∃ c, v = ⟨[], [c]⟩ := by
    simp only [evalT] at h
    rcases hy : evalT ex lg env y with _ | vy <;> rw [hy] at h
    · exact absurd h (by simp)
    rcases hz : evalT ex lg env z with _ | vz <;> rw [hz] at h
    · exact absurd h (by simp)
    exact lossesXentVal_scalar ex lg vy vz v h
  rcases hscal with ⟨c, rfl⟩
  have e : evalT ex lg env (TExpr.reduceMean (TExpr.lossesSoftmaxXent y z)) =
      match evalT ex lg env (TExpr.lossesSoftmaxXent y z) with
      | some w => some (reduceMeanVal w)
      | none => none := rfl
  rw [e, h]
  simp [reduceMeanVal_scalar]

/-- C9: `input_placeholder()` is a float32 symbolic tensor of static shape
`(None, 784)` and `target_placeholder()` a float32 symbolic tensor of static
shape `(None, 10)`; for every positive batch size `n`, a concrete batch of
`n` rows of length 784 fits the former and one of `n` rows of length 10 fits
the latter (the `None` batch axis accepts any extent). -/
theorem placeholders_float32_shapes_accept_any_batch :
    staticShape input_placeholder = [none, some 784] ∧
    dtypeOf input_placeholder = DType.float32 ∧
    staticShape target_placeholder = [none, some 10] ∧
    dtypeOf target_placeholder = DType.float32 ∧
    ∀ n : Nat, 0 < n →
      shapeCompatible [n, 784] (staticShape input_placeholder) = true ∧
      shapeCompatible [n, 10] (staticShape target_placeholder) = true := by
  exact ⟨rfl, rfl, rfl, rfl, fun n _ => ⟨rfl, rfl⟩⟩

/-- Witness for C9 at batch size `n = 3`. -/
theorem placeholders_float32_shapes_accept_any_batch_witness :
    shapeCompatible [3, 784] (staticShape input_placeholder) = true ∧
    shapeCompatible [3, 10] (staticShape target_placeholder) = true :=
  (placeholders_float32_shapes_accept_any_batch.2.2.2.2) 3 (by decide)

/-- C8: when the feature dimension (second static dimension) of `X` exists
but is statically unknown, `onelayer` raises immediately — `2 / None` fails
at construction time — and the graph is exactly as before the call: no node
was registered. -/
theorem onelayer_fails_on_unknown_feature_dim (X Y : TExpr) (l : Nat)
    (g : List TExpr) (h : (staticShape X).get? 1 = some none) :
    onelayer X Y l g =
      (Except.error "TypeError: unsupported operand / on int and NoneType", g) := by
  unfold onelayer
  rw [h]
  rfl

/-- Witness for C8: a placeholder of static shape `(None, None)`. -/
theorem onelayer_fails_on_unknown_feature_dim_witness :
    onelayer Xunk target_placeholder 10 [] =
      (Except.error "TypeError: unsupported operand / on int and NoneType", []) :=
  onelayer_fails_on_unknown_feature_dim Xunk target_placeholder 10 [] (by decide)

/-- C7: `train_step` makes one `sess.run` call on the operation list
`[train_op, loss_op, summaries_op]` with `batch[0]` bound to `X` and
`batch[1]` bound to `Y`, and returns the triple of their results in that
order; all three results are read against the same pre-call state (one
atomic execution step reflecting one forward pass). -/
theorem train_step_binds_batch_and_returns_triple {σ β ρ : Type} [Inhabited ρ]
    (sess : σ) (batch : β × β) (X Y : TExpr)
    (train_op loss_op summaries_op : TFOp σ β ρ) :
    train_step sess batch X Y train_op loss_op summaries_op =
      ((train_op.eval sess [(X, batch.1), (Y, batch.2)],
        loss_op.eval sess [(X, batch.1), (Y, batch.2)],
        summaries_op.eval sess [(X, batch.1), (Y, batch.2)]),
       summaries_op.update
         (loss_op.update
           (train_op.update sess [(X, batch.1), (Y, batch.2)])
           [(X, batch.1), (Y, batch.2)])
         [(X, batch.1), (Y, batch.2)]) := by
  simp [train_step, sessRun]

/-- C10: with a fixed minibatch and update-free operations (a no-op
`train_op`, and `loss_op`/`summaries_op` pure readouts, as loss and summary
tensors are), a second invocation of `train_step` — run on the session state
the first invocation left behind — returns exactly the same results, in
particular the same loss value. -/
theorem train_step_deterministic_without_updates {σ β ρ : Type} [Inhabited ρ]
    (sess : σ) (batch : β × β) (X Y : TExpr)
    (train_op loss_op summaries_op : TFOp σ β ρ)
    (ht : ∀ st f, train_op.update st f = st)
    (hl : ∀ st f, loss_op.update st f = st)
    (hs : ∀ st f, summaries_op.update st f = st) :
    train_step (train_step sess batch X Y train_op loss_op summaries_op).2
        batch X Y train_op loss_op summaries_op =
      train_step sess batch X Y train_op loss_op summaries_op := by
  simp [train_step, sessRun, ht, hl, hs]

/-- Witness for C10 on a toy integer session with three update-free ops. -/
theorem train_step_deterministic_without_updates_witness :
    train_step (train_step 5 (1, 2) X0 Y0 readOp readOp readOp).2
        (1, 2) X0 Y0 readOp readOp readOp =
      train_step 5 (1, 2) X0 Y0 readOp readOp readOp :=
  train_step_deterministic_without_updates 5 (1, 2) X0 Y0 readOp readOp readOp
    (fun _ _ => rfl) (fun _ _ => rfl) (fun _ _ => rfl)

/-- C3: in both `onelayer` and `twolayer`, the returned `batch_xentropy`
(fifth resp. seventh output) is already a batch-averaged rank-0 scalar —
`tf.losses.softmax_cross_entropy` applies its default mean reduction — and
the returned `batch_loss` is its `reduce_mean`, which therefore evaluates to
exactly the same value on every input. -/
theorem batch_loss_equals_batch_xentropy :
    (∀ (X Y : TExpr) (l : Nat) (g : List TExpr)
      (r : TExpr × TExpr × TExpr × TExpr × TExpr × TExpr) (g2 : List TExpr),
      onelayer X Y l g = (Except.ok r, g2) →
        staticShape r.2.2.2.2.1 = [] ∧
        r.2.2.2.2.2 = TExpr.reduceMean r.2.2.2.2.1 ∧
        ∀ {α : Type} [LinearOrderedField α] (ex lg : α → α)
          (env : TExpr → Option (TValue α)) (v : TValue α),
          evalT ex lg env r.2.2.2.2.1 = some v →
          evalT ex lg env r.2.2.2.2.2 = some v) ∧
    (∀ (X Y : TExpr) (hid o : Nat) (g : List TExpr)
      (r : TExpr × TExpr × TExpr × TExpr × TExpr × TExpr × TExpr × TExpr)
      (g2 : List TExpr),
      twolayer X Y hid o g = (Except.ok r, g2) →
        staticShape r.2.2.2.2.2.2.1 = [] ∧
        r.2.2.2.2.2.2.2 = TExpr.reduceMean r.2.2.2.2.2.2.1 ∧
        ∀ {α : Type} [LinearOrderedField α] (ex lg : α → α)
          (env : TExpr → Option (TValue α)) (v : TValue α),
          evalT ex lg env r.2.2.2.2.2.2.1 = some v →
          evalT ex lg env r.2.2.2.2.2.2.2 = some v) := by
  constructor
  · intro X Y l g r g2 h
    rcases hF : (staticShape X).get? 1 with _ | dim
    · unfold onelayer at h
      rw [hF] at h
      exact absurd h (by simp [throwB])
    rcases dim with _ | F
    · unfold onelayer at h
      rw [hF] at h
      exact absurd h (by simp [throwB])
    rw [onelayer_run X Y l g F hF] at h
    injection h with h1 _
    injection h1 with h2
    subst h2
    refine ⟨rfl, rfl, ?_⟩
    intro α inst ex lg env v hv
    exact evalT_loss_of_xent ex lg env Y (oneLogits X F l) v hv
  · intro X Y hid o g r g2 h
    rcases hF : (staticShape X).get? 1 with _ | dim
    · unfold twolayer at h
      rw [hF] at h
      exact absurd h (by simp [throwB])
    rcases dim with _ | F
    · unfold twolayer at h
      rw [hF] at h
      exact absurd h (by simp [throwB])
    rw [twolayer_run X Y hid o g F hF] at h
    injection h with h1 _
    injection h1 with h2
    subst h2
    refine ⟨rfl, rfl, ?_⟩
    intro α inst ex lg env v hv
    exact evalT_loss_of_xent ex lg env Y (twoLogits X F hid o) v hv

/-- Witness for C3: a batch of one all-zero example with all-zero parameters;
the loss node evaluates to the same scalar the cross-entropy node does. -/
theorem batch_loss_equals_batch_xentropy_witness :
    evalT (fun x => x) (fun x => x) envW (oneLoss X0 Y0 1 1) =
      some ⟨[], [(0 : ℚ)]⟩ ∧
    evalT (fun x => x) (fun x => x) envW (twoLoss X0 Y0 1 1 1) =
      some ⟨[], [(0 : ℚ)]⟩ := by
  constructor
  · exact (batch_loss_equals_batch_xentropy.1 X0 Y0 1 [] _ _
      (onelayer_run X0 Y0 1 [] 1 rfl)).2.2 (fun x => x) (fun x => x) envW
      ⟨[], [(0 : ℚ)]⟩ (by
        simp [evalT, oneXent, oneLogits, oneW, oneB, X0, Y0, envW,
          TValue.matmulVal, TValue.addVal, TValue.lossesXentVal,
          TValue.perExampleXent, TValue.rowXent, TValue.softmaxRow,
          TValue.rowOf, List.range_succ])
  · exact (batch_loss_equals_batch_xentropy.2 X0 Y0 1 1 [] _ _
      (twolayer_run X0 Y0 1 1 [] 1 rfl)).2.2 (fun x => x) (fun x => x) envW
      ⟨[], [(0 : ℚ)]⟩ (by
        simp [evalT, twoXent, twoLogits, twoHidden, twoW1, twoB1, twoW2,
          twoB2, X0, Y0, envW, TValue.matmulVal, TValue.addVal,
          TValue.lossesXentVal, TValue.perExampleXent, TValue.rowXent,
          TValue.softmaxRow, TValue.rowOf, List.range_succ])

/-- C1 (code bug): `onelayer` is documented to return, as its fifth element,
"the cross-entropy loss for each image in the batch", but
`tf.losses.softmax_cross_entropy` already applies its default mean reduction:
the returned `batch_xentropy` node is a rank-0 scalar (static shape `[]`),
not a batch-length vector (static shape `[none]`) — while an actual
per-example softmax cross-entropy of a 2-example batch is rank-1 of length 2,
here with genuinely distinct entries. -/
theorem onelayer_batch_xentropy_scalar_not_per_example :
    (onelayer input_placeholder target_placeholder 10 []).1.map
      (fun r => staticShape r.2.2.2.2.1) = Except.ok [] ∧
    ([] : List (Option Nat)) ≠ [none] ∧
    TValue.perExampleXent (fun x => x) (fun x => x)
      (⟨[2, 1], [1, 1]⟩ : TValue ℚ) ⟨[2, 1], [0, 1]⟩ =
      some ⟨[2], [0, -1]⟩ := by
  refine ⟨by rfl, by decide, ?_⟩
  simp [TValue.perExampleXent, TValue.rowXent, TValue.softmaxRow,
    TValue.rowOf, List.range_succ]

/-- C4 counterexample: the fifth value `onelayer` returns has rank 0 — it is
not the claimed per-example loss vector (rank 1). -/
theorem onelayer_fifth_output_has_rank_zero :
    (onelayer input_placeholder target_placeholder 10 []).1.map
      (fun r => (staticShape r.2.2.2.2.1).length) = Except.ok 0 ∧
    (0 : Nat) ≠ 1 := ⟨by rfl, by decide⟩

/-- C4 (amended): for every `X` whose feature dimension `F` is statically
known, `onelayer` creates a weight tensor of shape `(F, layersize)` drawn
from a zero-mean normal with standard deviation `sqrt(2 / F)` (its square,
the recorded variance, is `2 / F`), a bias tensor of shape `(layersize)`
initialized to zero, logits `X·W + b`, and returns them in the order
(weights, biases, logits, predictions, cross-entropy loss, mean loss) —
the fifth element being the batch-averaged scalar the library call returns
rather than a per-example vector. -/
theorem onelayer_he_init_and_output_order (X Y : TExpr) (l : Nat)
    (g : List TExpr) (F : Nat)
    (h : (staticShape X).get? 1 = some (some F)) :
    onelayer X Y l g =
      (Except.ok (oneW F l, oneB l, oneLogits X F l, onePreds X F l,
        oneXent X Y F l, oneLoss X Y F l),
       g ++ [oneW F l, oneB l, oneLogits X F l, oneXent X Y F l,
         oneLoss X Y F l, onePreds X F l]) ∧
    oneW F l = variableNode (randomNormal [F, l] (2 / F)) "weights"
      DType.float32 ∧
    staticShape (oneW F l) = [some F, some l] ∧
    oneB l = variableNode (zeros [l]) "biases" DType.float32 ∧
    staticShape (oneB l) = [some l] ∧
    oneLogits X F l = add (matmul X (oneW F l)) (oneB l) ∧
    onePreds X F l = softmax (oneLogits X F l) :=
  ⟨onelayer_run X Y l g F h, rfl, rfl, rfl, rfl, rfl, rfl⟩

/-- Witness for C4 on `input_placeholder` (`F = 784`, `layersize = 10`). -/
theorem onelayer_he_init_and_output_order_witness :
    onelayer input_placeholder target_placeholder 10 [] =
      (Except.ok (oneW 784 10, oneB 10, oneLogits input_placeholder 784 10,
        onePreds input_placeholder 784 10,
        oneXent input_placeholder target_placeholder 784 10,
        oneLoss input_placeholder target_placeholder 784 10),
       [oneW 784 10, oneB 10, oneLogits input_placeholder 784 10,
        oneXent input_placeholder target_placeholder 784 10,
        oneLoss input_placeholder target_placeholder 784 10,
        onePreds input_placeholder 784 10]) := by
  have e := (onelayer_he_init_and_output_order input_placeholder
    target_placeholder 10 [] 784 rfl).1
  simpa using e

/-- C5 counterexample: the seventh value `twolayer` returns is a rank-0
scalar — not the claimed per-example loss vector. -/
theorem twolayer_seventh_output_has_rank_zero :
    (twolayer input_placeholder target_placeholder 30 10 []).1.map
      (fun r => staticShape r.2.2.2.2.2.2.1) = Except.ok [] ∧
    ([] : List (Option Nat)).length ≠ 1 := ⟨by rfl, by decide⟩

/-- C5 (amended): `twolayer` builds two stacked affine transforms — first
`F × hidden`, He-initialized with standard deviation `sqrt(2 / F)`, followed
by a rectified-linear activation, then `hidden × output`, He-initialized
with standard deviation `sqrt(2 / hidden)`, producing the logits — and
returns the ordered tuple (W1, b1, W2, b2, logits, predictions,
cross-entropy loss, mean loss), the seventh element being the batch-averaged
scalar rather than a per-example vector. -/
theorem twolayer_he_init_relu_and_output_order (X Y : TExpr) (hid o : Nat)
    (g : List TExpr) (F : Nat)
    (h : (staticShape X).get? 1 = some (some F)) :
    twolayer X Y hid o g =
      (Except.ok (twoW1 F hid, twoB1 hid, twoW2 hid o, twoB2 o,
        twoLogits X F hid o, twoPreds X F hid o,
        twoXent X Y F hid o, twoLoss X Y F hid o),
       g ++ [twoW1 F hid, twoB1 hid, twoW2 hid o, twoB2 o,
         add (matmul X (twoW1 F hid)) (twoB1 hid), twoHidden X F hid,
         twoLogits X F hid o, twoXent X Y F hid o, twoLoss X Y F hid o,
         twoPreds X F hid o]) ∧
    twoW1 F hid = variableNode (randomNormal [F, hid] (2 / F))
      "layer_1_weights" DType.float32 ∧
    staticShape (twoW1 F hid) = [some F, some hid] ∧
    twoW2 hid o = variableNode (randomNormal [hid, o] (2 / hid))
      "layer_2_weights" DType.float32 ∧
    staticShape (twoW2 hid o) = [some hid, some o] ∧
    twoHidden X F hid = relu (add (matmul X (twoW1 F hid)) (twoB1 hid)) ∧
    twoLogits X F hid o = add (matmul (twoHidden X F hid) (twoW2 hid o))
      (twoB2 o) :=
  ⟨twolayer_run X Y hid o g F h, rfl, rfl, rfl, rfl, rfl, rfl⟩

/-- Witness for C5 on `input_placeholder`
(`F = 784`, `hiddensize = 30`, `outputsize = 10`). -/
theorem twolayer_he_init_relu_and_output_order_witness :
    twolayer input_placeholder target_placeholder 30 10 [] =
      (Except.ok (twoW1 784 30, twoB1 30, twoW2 30 10, twoB2 10,
        twoLogits input_placeholder 784 30 10,
        twoPreds input_placeholder 784 30 10,
        twoXent input_placeholder target_placeholder 784 30 10,
        twoLoss input_placeholder target_placeholder 784 30 10),
       [twoW1 784 30, twoB1 30, twoW2 30 10, twoB2 10,
        add (matmul input_placeholder (twoW1 784 30)) (twoB1 30),
        twoHidden input_placeholder 784 30,
        twoLogits input_placeholder 784 30 10,
        twoXent input_placeholder target_placeholder 784 30 10,
        twoLoss input_placeholder target_placeholder 784 30 10,
        twoPreds input_placeholder 784 30 10]) := by
  have e := (twolayer_he_init_relu_and_output_order input_placeholder
    target_placeholder 30 10 [] 784 rfl).1
  simpa using e

/-- C2 counterexample: `convnet` called with padding `"valid"` still builds
both convolution layers with padding `"same"` — the padding argument is
ignored (both `tf.layers.conv2d` calls pass the literal `"same"`). -/
theorem convnet_padding_argument_ignored :
    (convnet Ximg target_placeholder [10, 10] [3, 3] 10 Padding.valid []).1.map
      (fun r => (convPadding r.1, convPadding r.2.1)) =
      Except.ok (some Padding.same, some Padding.same) ∧
    ((some Padding.same, some Padding.same) :
        Option Padding × Option Padding) ≠
      (some Padding.valid, some Padding.valid) := ⟨by rfl, by decide⟩

/-- C2 (amended): for every padding argument passed to `convnet`, both
convolution layers are built with the given filter size but with the
hardcoded padding mode `"same"` (the `padding` parameter is never used);
consequently, for every padding argument, the spatial dimensions of `conv1`
and `conv2` equal the input's spatial dimensions. -/
theorem convnet_conv_layers_filter_shape_same_padding (X Y : TExpr)
    (cs : List Nat) (o : Nat) (p : Padding) (g : List TExpr)
    (b c : Option Nat) (ix iy c0 c1 kh kw : Nat)
    (hsh : staticShape X = [b, some ix, some iy, c])
    (h0 : cs.get? 0 = some c0) (h1 : cs.get? 1 = some c1) :
    convnet X Y cs [kh, kw] o p g =
      (Except.ok (convC1 X c0 [kh, kw], convC2 X c0 c1 [kh, kw],
        oneW (ix * iy * c1) o, oneB o,
        oneLogits (convVec X c0 c1 ix iy [kh, kw]) (ix * iy * c1) o,
        onePreds (convVec X c0 c1 ix iy [kh, kw]) (ix * iy * c1) o,
        oneXent (convVec X c0 c1 ix iy [kh, kw]) Y (ix * iy * c1) o,
        oneLoss (convVec X c0 c1 ix iy [kh, kw]) Y (ix * iy * c1) o),
       g ++ [convC1 X c0 [kh, kw], convC2 X c0 c1 [kh, kw],
         convVec X c0 c1 ix iy [kh, kw], oneW (ix * iy * c1) o, oneB o,
         oneLogits (convVec X c0 c1 ix iy [kh, kw]) (ix * iy * c1) o,
         oneXent (convVec X c0 c1 ix iy [kh, kw]) Y (ix * iy * c1) o,
         oneLoss (convVec X c0 c1 ix iy [kh, kw]) Y (ix * iy * c1) o,
         onePreds (convVec X c0 c1 ix iy [kh, kw]) (ix * iy * c1) o]) ∧
    convKernel (convC1 X c0 [kh, kw]) = some [kh, kw] ∧
    convPadding (convC1 X c0 [kh, kw]) = some Padding.same ∧
    convKernel (convC2 X c0 c1 [kh, kw]) = some [kh, kw] ∧
    convPadding (convC2 X c0 c1 [kh, kw]) = some Padding.same ∧
    staticShape (convC1 X c0 [kh, kw]) = [b, some ix, some iy, some c0] ∧
    staticShape (convC2 X c0 c1 [kh, kw]) = [b, some ix, some iy, some c1] := by
  have hx : (staticShape X).get? 1 = some (some ix) := by rw [hsh]; rfl
  have hy : (staticShape X).get? 2 = some (some iy) := by rw [hsh]; rfl
  have e1 : staticShape (convC1 X c0 [kh, kw]) =
      convShape Padding.same [kh, kw] c0 (staticShape X) := rfl
  have e2 : staticShape (convC2 X c0 c1 [kh, kw]) =
      convShape Padding.same [kh, kw] c1 (staticShape (convC1 X c0 [kh, kw])) := rfl
  refine ⟨convnet_run X Y cs [kh, kw] o p g ix iy c0 c1 hx hy h0 h1,
    rfl, rfl, rfl, rfl, ?_, ?_⟩
  · rw [e1, hsh]
    rfl
  · rw [e2, e1, hsh]
    rfl

/-- Witness for C2 on a `(None, 4, 4, 1)` input with padding `"valid"`:
the built layers use kernel `[3, 3]`, padding `"same"`, and preserve the
`4 × 4` spatial extent. -/
theorem convnet_conv_layers_filter_shape_same_padding_witness :
    convKernel (convC1 Ximg 10 [3, 3]) = some [3, 3] ∧
    convPadding (convC1 Ximg 10 [3, 3]) = some Padding.same ∧
    staticShape (convC1 Ximg 10 [3, 3]) = [none, some 4, some 4, some 10] ∧
    staticShape (convC2 Ximg 10 10 [3, 3]) = [none, some 4, some 4, some 10] := by
  have e := convnet_conv_layers_filter_shape_same_padding Ximg
    target_placeholder [10, 10] 10 Padding.valid [] none (some 1) 4 4 10 10 3 3
    rfl rfl rfl
  exact ⟨e.2.1, e.2.2.1, e.2.2.2.2.2.1, e.2.2.2.2.2.2⟩

/-- C6: `convnet` flattens the second convolution's output into one feature
vector per example of width `image_x * image_y * convlayer_sizes[1]` (static
shape `(None, ix*iy*c1)`) and delegates the classification head to `onelayer`
on that flattened tensor with `outputsize` as the layer width: its last six
returned values — and the nodes they register — are exactly what `onelayer`
produces there. -/
theorem convnet_flattens_and_delegates_to_onelayer (X Y : TExpr)
    (cs fs : List Nat) (o : Nat) (p : Padding) (g : List TExpr)
    (ix iy c0 c1 : Nat)
    (hx : (staticShape X).get? 1 = some (some ix))
    (hy : (staticShape X).get? 2 = some (some iy))
    (h0 : cs.get? 0 = some c0) (h1 : cs.get? 1 = some c1) :
    staticShape (convVec X c0 c1 ix iy fs) = [none, some (ix * iy * c1)] ∧
    convnet X Y cs fs o p g =
      (Except.ok (convC1 X c0 fs, convC2 X c0 c1 fs,
        oneW (ix * iy * c1) o, oneB o,
        oneLogits (convVec X c0 c1 ix iy fs) (ix * iy * c1) o,
        onePreds (convVec X c0 c1 ix iy fs) (ix * iy * c1) o,
        oneXent (convVec X c0 c1 ix iy fs) Y (ix * iy * c1) o,
        oneLoss (convVec X c0 c1 ix iy fs) Y (ix * iy * c1) o),
       g ++ [convC1 X c0 fs, convC2 X c0 c1 fs, convVec X c0 c1 ix iy fs,
         oneW (ix * iy * c1) o, oneB o,
         oneLogits (convVec X c0 c1 ix iy fs) (ix * iy * c1) o,
         oneXent (convVec X c0 c1 ix iy fs) Y (ix * iy * c1) o,
         oneLoss (convVec X c0 c1 ix iy fs) Y (ix * iy * c1) o,
         onePreds (convVec X c0 c1 ix iy fs) (ix * iy * c1) o]) ∧
    onelayer (convVec X c0 c1 ix iy fs) Y o
        (g ++ [convC1 X c0 fs, convC2 X c0 c1 fs, convVec X c0 c1 ix iy fs]) =
      (Except.ok (oneW (ix * iy * c1) o, oneB o,
        oneLogits (convVec X c0 c1 ix iy fs) (ix * iy * c1) o,
        onePreds (convVec X c0 c1 ix iy fs) (ix * iy * c1) o,
        oneXent (convVec X c0 c1 ix iy fs) Y (ix * iy * c1) o,
        oneLoss (convVec X c0 c1 ix iy fs) Y (ix * iy * c1) o),
       g ++ [convC1 X c0 fs, convC2 X c0 c1 fs, convVec X c0 c1 ix iy fs,
         oneW (ix * iy * c1) o, oneB o,
         oneLogits (convVec X c0 c1 ix iy fs) (ix * iy * c1) o,
         oneXent (convVec X c0 c1 ix iy fs) Y (ix * iy * c1) o,
         oneLoss (convVec X c0 c1 ix iy fs) Y (ix * iy * c1) o,
         onePreds (convVec X c0 c1 ix iy fs) (ix * iy * c1) o]) := by
  refine ⟨rfl, convnet_run X Y cs fs o p g ix iy c0 c1 hx hy h0 h1, ?_⟩
  rw [onelayer_run (convVec X c0 c1 ix iy fs) Y o
    (g ++ [convC1 X c0 fs, convC2 X c0 c1 fs, convVec X c0 c1 ix iy fs])
    (ix * iy * c1) rfl]
  simp [List.append_assoc]

/-- Witness for C6 on a `(None, 4, 4, 1)` input
(`convlayer_sizes = [10, 10]`, flattened width `4 * 4 * 10`). -/
theorem convnet_flattens_and_delegates_to_onelayer_witness :
    staticShape (convVec Ximg 10 10 4 4 [3, 3]) = [none, some (4 * 4 * 10)] ∧
    convnet Ximg target_placeholder [10, 10] [3, 3] 10 Padding.same [] =
      (Except.ok (convC1 Ximg 10 [3, 3], convC2 Ximg 10 10 [3, 3],
        oneW (4 * 4 * 10) 10, oneB 10,
        oneLogits (convVec Ximg 10 10 4 4 [3, 3]) (4 * 4 * 10) 10,
        onePreds (convVec Ximg 10 10 4 4 [3, 3]) (4 * 4 * 10) 10,
        oneXent (convVec Ximg 10 10 4 4 [3, 3]) target_placeholder
          (4 * 4 * 10) 10,
        oneLoss (convVec Ximg 10 10 4 4 [3, 3]) target_placeholder
          (4 * 4 * 10) 10),
       [] ++ [convC1 Ximg 10 [3, 3], convC2 Ximg 10 10 [3, 3],
         convVec Ximg 10 10 4 4 [3, 3], oneW (4 * 4 * 10) 10, oneB 10,
         oneLogits (convVec Ximg 10 10 4 4 [3, 3]) (4 * 4 * 10) 10,
         oneXent (convVec Ximg 10 10 4 4 [3, 3]) target_placeholder
           (4 * 4 * 10) 10,
         oneLoss (convVec Ximg 10 10 4 4 [3, 3]) target_placeholder
           (4 * 4 * 10) 10,
         onePreds (convVec Ximg 10 10 4 4 [3, 3]) (4 * 4 * 10) 10]) := by
  have e := convnet_flattens_and_delegates_to_onelayer Ximg target_placeholder
    [10, 10] [3, 3] 10 Padding.same [] 4 4 10 10 rfl rfl rfl rfl
  exact ⟨e.1, e.2.1⟩
